import Mathlib

/-!
Shallow embedding of the Prompt Presentation & Filtering module of the
prompt-nexus-frontend Angular application: the pure presentation helpers of
`PromptLibraryComponent`, `PromptDetailComponent`, `AddPromptComponent` and
`ComplexityToColorPipe`, together with the record-to-view-model mappings
performed in `loadPrompts` and the detail component's `ngOnInit`.

Modelling conventions:
- JavaScript numbers that only ever hold integral values are modelled as `Int`
  (or `Nat` where the source guarantees non-negativity).
- A field or argument that may be `undefined`/`null` at a call site is
  modelled as `Option _`; JavaScript operations that throw a `TypeError` on
  `undefined`/`null` (such as calling `.toLowerCase()` or `.toString()` on
  them) are modelled with `Except String _`.
- Strings are modelled through their character lists; the JavaScript builtins
  `toLowerCase`, `trim` and `includes` are modelled by `jsToLower`, `jsTrim`
  and `containsSub` below (restricted to the ASCII behaviour relevant here).
- The `Date` constructor and `Date.now()` are runtime builtins, passed as
  explicit parameters: a parser `String → Option Int` (`none` models an
  `Invalid Date`, `some t` a date `t` milliseconds after the Unix epoch) and
  the current time in milliseconds.  `Math.floor` of an integer quotient is
  `Int.fdiv` (exact for every value below 2^53, the ranges involved here).
-/

namespace PromptNexus

/-- Models `String.prototype.toLowerCase` (character-wise lowering; the inputs
of this module are ASCII, where this agrees with the builtin). -/
def jsToLower (s : String) : String := ⟨s.data.map Char.toLower⟩

/-- Models `String.prototype.trim`: drop leading and trailing whitespace
(restricted to the ASCII whitespace characters the module encounters). -/
def jsTrim (s : String) : String :=
  ⟨((s.data.dropWhile Char.isWhitespace).reverse.dropWhile Char.isWhitespace).reverse⟩

/-- Models `s.includes(pat)`: `pat` occurs contiguously inside `s`. -/
def containsSub (s pat : String) : Bool := decide (pat.data <:+: s.data)

/-- Models JavaScript `x || d` for a possibly absent number `x`:
`undefined`/`null` and `0` are falsy and fall through to `d`. -/
def jsOrNum (x : Option Int) (d : Int) : Int :=
  match x with
  | none => d
  | some v => if v = 0 then d else v

/-- Raw API prompt record as read by the components: fields `id`, `title`,
`content`, `complexity`, `view_count` (may be absent) and `created_at`. -/
structure RawPrompt where
  id : String ⊕ Int
  title : String
  content : String
  complexity : Int
  view_count : Option Int
  created_at : String
deriving Repr, DecidableEq

/-- The `Prompt` interface of `prompt-library.component.ts`. -/
structure Prompt where
  id : String ⊕ Int
  title : String
  complexity : String
  complexityLevel : Int
  description : String
  views : Int
  date : String
deriving Repr, DecidableEq

namespace PromptLibraryComponent

/-- `PromptLibraryComponent.getComplexityText`: three buckets with an
explicit Unknown fallback. -/
def getComplexityText (level : Int) : String :=
  if level ≥ 1 ∧ level ≤ 3 then "Simple"
  else if level ≥ 4 ∧ level ≤ 7 then "Moderate"
  else if level ≥ 8 ∧ level ≤ 10 then "Complex"
  else "Unknown"

/-- `PromptLibraryComponent.getComplexityColor`: Material palette name from a
complexity label, case-insensitively, defaulting to primary. -/
def getComplexityColor (complexity : String) : String :=
  match jsToLower complexity with
  | "simple" => "primary"
  | "moderate" => "accent"
  | "complex" => "warn"
  | _ => "primary"

/-- Round the rational `p / q` (`q` positive) to the nearest integer, ties to
even — the IEEE-754 default rounding applied to each arithmetic operation. -/
def roundHalfEven (p q : Nat) : Nat :=
  let d := p / q
  let r := p % q
  if 2 * r < q then d
  else if 2 * r > q then d + 1
  else if d % 2 = 0 then d else d + 1

/-- Fuelled binade search: `binadeExpAux fuel n` is the floor of the base-2
logarithm of `n` whenever `fuel ≥ n ≥ 1` (the fuel only bounds the
recursion; it is halved away after logarithmically many steps). -/
def binadeExpAux : Nat → Nat → Nat
  | 0, _ => 0
  | fuel + 1, n => if n ≥ 2 then binadeExpAux fuel (n / 2) + 1 else 0

/-- Floor of the base-2 logarithm of a positive natural number. -/
def binadeExp (n : Nat) : Nat := binadeExpAux n n

/-- The binary64 (double) value of `v / 1000` for `1000 ≤ v < 2^53`, as the
pair `(m, e)` with value `m * 2 ^ e / 2 ^ 52` and `2^52 ≤ m < 2^53`:
JavaScript divides two exactly represented integers and rounds the true
quotient to 53 significant bits, nearest, ties to even. -/
def flDivThousand (v : Nat) : Nat × Nat :=
  let e := binadeExp (v / 1000)
  let m := roundHalfEven (v * 2 ^ 52) (1000 * 2 ^ e)
  if m = 2 ^ 53 then (2 ^ 52, e + 1) else (m, e)

/-- Models `(views / 1000).toFixed(1)` for the integers at least 1000 that
reach it: computes the binary double closest to `views / 1000` and applies
the ECMAScript `toFixed` rule to that double — the integer count of tenths
`n` for which `n / 10` is closest to the double, the larger `n` at exact
halves — then prints `n` as one decimal digit.  With `(m, e)` the double's
encoding, `n = floor(10 * m * 2^e / 2^52 + 1/2)`. -/
def toFixed1Thousandths (views : Int) : String :=
  let p := flDivThousand views.toNat
  let tenths : Nat := (10 * p.1 * 2 ^ (p.2 + 1) + 2 ^ 52) / 2 ^ 53
  toString (tenths / 10) ++ "." ++ toString (tenths % 10)

/-- `PromptLibraryComponent.formatViews`: thousands as one decimal plus `k`,
otherwise plain decimal text. -/
def formatViews (views : Int) : String :=
  if views ≥ 1000 then toFixed1Thousandths views ++ "k"
  else toString views

/-- The per-record transformation inside `loadPrompts`; `fmtDate` stands for
the `toLocaleDateString` rendering builtin applied to `new Date(created_at)`. -/
def mapPrompt (fmtDate : String → String) (p : RawPrompt) : Prompt :=
  { id := p.id
    title := p.title
    description := p.content
    complexityLevel := p.complexity
    complexity := getComplexityText p.complexity
    views := jsOrNum p.view_count 0
    date := fmtDate p.created_at }

/-- `loadPrompts` maps the fetched array element-wise with `mapPrompt`. -/
def loadPromptsMap (fmtDate : String → String) (data : List RawPrompt) : List Prompt :=
  data.map (mapPrompt fmtDate)

/-- The search term normalisation in `filterPrompts`:
`this.searchTerm.toLowerCase().trim()`. -/
def normalizedTerm (searchTerm : String) : String := jsTrim (jsToLower searchTerm)

/-- The predicate of `filterPrompts`: lowercased title or lowercased
description contains the normalised term. -/
def matchesTerm (term : String) (p : Prompt) : Bool :=
  containsSub (jsToLower p.title) term || containsSub (jsToLower p.description) term

/-- `PromptLibraryComponent.filterPrompts`: empty normalised term returns a
copy of the list, otherwise keeps the records matching the term. -/
def filterPrompts (prompts : List Prompt) (searchTerm : String) : List Prompt :=
  let term := normalizedTerm searchTerm
  if term = "" then prompts
  else prompts.filter (matchesTerm term)

end PromptLibraryComponent

/-- Three-bucket labelling, stated from the specification's words: level in
[1,3] is Simple, [4,7] Moderate, [8,10] Complex, otherwise Unknown. -/
def labelSpec (L : Int) : String :=
  if 1 ≤ L ∧ L ≤ 3 then "Simple"
  else if 4 ≤ L ∧ L ≤ 7 then "Moderate"
  else if 8 ≤ L ∧ L ≤ 10 then "Complex"
  else "Unknown"

/-- Claim C1: for every integer level, the three-bucket classifier labels
[1,3] as Simple, [4,7] as Moderate, [8,10] as Complex and every integer
outside [1,10] as Unknown. -/
theorem getComplexityText_buckets (L : Int) :
    (1 ≤ L → L ≤ 3 → PromptLibraryComponent.getComplexityText L = "Simple") ∧
    (4 ≤ L → L ≤ 7 → PromptLibraryComponent.getComplexityText L = "Moderate") ∧
    (8 ≤ L → L ≤ 10 → PromptLibraryComponent.getComplexityText L = "Complex") ∧
    (L < 1 ∨ 10 < L → PromptLibraryComponent.getComplexityText L = "Unknown") := by
  unfold PromptLibraryComponent.getComplexityText
  refine ⟨?_, ?_, ?_, ?_⟩ <;> intros <;> split_ifs <;> first | rfl | omega

/-- Concrete instances of C1 at levels 2, 5, 9 and 0. -/
theorem getComplexityText_buckets_witness :
    PromptLibraryComponent.getComplexityText 2 = "Simple" ∧
    PromptLibraryComponent.getComplexityText 5 = "Moderate" ∧
    PromptLibraryComponent.getComplexityText 9 = "Complex" ∧
    PromptLibraryComponent.getComplexityText 0 = "Unknown" :=
  ⟨(getComplexityText_buckets 2).1 (by decide) (by decide),
   (getComplexityText_buckets 5).2.1 (by decide) (by decide),
   (getComplexityText_buckets 9).2.2.1 (by decide) (by decide),
   (getComplexityText_buckets 0).2.2.2 (Or.inl (by decide))⟩

/-- A sample view model used as a concrete instance in witnesses. -/
def samplePrompt : Prompt :=
  { id := Sum.inl "1"
    title := "Cyber City"
    complexity := "Simple"
    complexityLevel := 2
    description := "A complex neon scene"
    views := 5
    date := "Jan 5, 2024" }

/-- Claim C2: an empty normalised search term returns the list unchanged;
otherwise the result is exactly the order-preserving subsequence of the items
whose lowercased title or lowercased description contains the normalised term
as a substring (the result is always a sublist of the input; the input list
itself is never modified, the function being pure). -/
theorem filterPrompts_spec (items : List Prompt) (searchTerm : String) :
    (PromptLibraryComponent.normalizedTerm searchTerm = "" →
      PromptLibraryComponent.filterPrompts items searchTerm = items) ∧
    (PromptLibraryComponent.normalizedTerm searchTerm ≠ "" →
      PromptLibraryComponent.filterPrompts items searchTerm =
        items.filter
          (PromptLibraryComponent.matchesTerm
            (PromptLibraryComponent.normalizedTerm searchTerm))) ∧
    List.Sublist (PromptLibraryComponent.filterPrompts items searchTerm) items := by
  unfold PromptLibraryComponent.filterPrompts
  by_cases h : PromptLibraryComponent.normalizedTerm searchTerm = "" <;>
    simp [h, List.filter_sublist]

/-- Concrete instances of C2: a whitespace-only term keeps the one-element
list intact, and the term " COMPLEX " selects by case-insensitive substring
match on title or description. -/
theorem filterPrompts_spec_witness :
    PromptLibraryComponent.filterPrompts [samplePrompt] "   " = [samplePrompt] ∧
    PromptLibraryComponent.filterPrompts [samplePrompt] " COMPLEX " =
      List.filter
        (PromptLibraryComponent.matchesTerm
          (PromptLibraryComponent.normalizedTerm " COMPLEX ")) [samplePrompt] :=
  ⟨(filterPrompts_spec [samplePrompt] "   ").1 (by decide),
   (filterPrompts_spec [samplePrompt] " COMPLEX ").2.1 (by decide)⟩

/-- A sample raw record with `view_count` absent, for witnesses. -/
def rawSample : RawPrompt :=
  { id := Sum.inr 1
    title := "T"
    content := "C"
    complexity := 2
    view_count := none
    created_at := "2024-01-05" }

/-- Claim C3: mapping a list of raw records yields one view model per record
in the same position (length preserved, element i of the output is the image
of element i of the input), the `views` field is `view_count` when present
and truthy and 0 otherwise, and an absent `view_count` yields `views = 0`
whose formatted text is "0". -/
theorem loadPrompts_map_spec (fmtDate : String → String) (data : List RawPrompt) :
    (PromptLibraryComponent.loadPromptsMap fmtDate data).length = data.length ∧
    (∀ i : Nat,
      (PromptLibraryComponent.loadPromptsMap fmtDate data).get? i =
        Option.map (PromptLibraryComponent.mapPrompt fmtDate) (data.get? i)) ∧
    (∀ p : RawPrompt,
      ((p.view_count = none ∨ p.view_count = some 0) →
        (PromptLibraryComponent.mapPrompt fmtDate p).views = 0 ∧
        PromptLibraryComponent.formatViews
          ((PromptLibraryComponent.mapPrompt fmtDate p).views) = "0") ∧
      (∀ v : Int, p.view_count = some v → v ≠ 0 →
        (PromptLibraryComponent.mapPrompt fmtDate p).views = v)) := by
  refine ⟨by simp [PromptLibraryComponent.loadPromptsMap],
    fun i => by simp [PromptLibraryComponent.loadPromptsMap, List.get?_map],
    fun p => ⟨fun h => ?_, fun v hv hv0 => ?_⟩⟩
  · rcases h with h | h <;>
      simp [PromptLibraryComponent.mapPrompt, jsOrNum, h,
        PromptLibraryComponent.formatViews] <;> rfl
  · simp [PromptLibraryComponent.mapPrompt, jsOrNum, hv, hv0]

/-- Concrete instance of C3: a record without `view_count` maps to 0 views
formatted as "0". -/
theorem loadPrompts_map_spec_witness :
    (PromptLibraryComponent.mapPrompt id rawSample).views = 0 ∧
    PromptLibraryComponent.formatViews
      ((PromptLibraryComponent.mapPrompt id rawSample).views) = "0" :=
  ((loadPrompts_map_spec id [rawSample]).2.2 rawSample).1 (Or.inl rfl)

namespace ComplexityToColorPipe

/-- `ComplexityToColorPipe.transform`: a case-insensitive lookup from a
complexity label to a background colour, defaulting to light grey.  The
argument is `Option String` because the pipe may receive a `null`/`undefined`
value, on which `complexity.toLowerCase()` throws a `TypeError` (modelled as
`Except.error`). -/
def transform (complexity : Option String) : Except String String :=
  match complexity with
  | none => Except.error "TypeError"
  | some c =>
    Except.ok <|
      match jsToLower c with
      | "simple" => "#D0EBFF"
      | "moderate" => "#FFF7C3"
      | "complex" => "#FFE5E5"
      | _ => "#f5f5f5"

end ComplexityToColorPipe

namespace PromptDetailComponent

/-- `PromptDetailComponent.getComplexityText`: two boundaries, no Unknown. -/
def getComplexityText (level : Int) : String :=
  if level ≤ 3 then "Simple"
  else if level ≤ 7 then "Moderate"
  else "Complex"

/-- `PromptDetailComponent.formatViews`: same formatting as the library
component's. -/
def formatViews (views : Int) : String :=
  if views ≥ 1000 then PromptLibraryComponent.toFixed1Thousandths views ++ "k"
  else toString views

/-- `formatViews` reached with a possibly `undefined`/`null` argument:
`undefined >= 1000` and `null >= 1000` are false, after which
`views.toString()` throws a `TypeError`. -/
def formatViewsJS (views : Option Int) : Except String String :=
  match views with
  | none => Except.error "TypeError"
  | some v => Except.ok (formatViews v)

/-- `PromptDetailComponent.getDaysAgo`.  `parse` models the `Date`
constructor on a timestamp string (`none` = Invalid Date) and `nowMs` the
current clock reading `new Date().getTime()`, both in milliseconds since the
epoch; `1000 * 60 * 60 * 24 = 86400000`. -/
def getDaysAgo (parse : String → Option Int) (nowMs : Int) (dateString : String) : Int :=
  if dateString = "" then 0
  else
    match parse dateString with
    | none => 0
    | some created => Int.fdiv (nowMs - created) 86400000

/-- `PromptDetailComponent.getComplexityClass`: two boundaries, lowercase
style names. -/
def getComplexityClass (level : Int) : String :=
  if level ≤ 3 then "simple"
  else if level ≤ 7 then "moderate"
  else "complex"

/-- The object built in `PromptDetailComponent.ngOnInit` from one raw
record.  Its `views` field copies `data.view_count` verbatim, so it is absent
whenever the raw field is. -/
structure DetailPrompt where
  title : String
  content : String
  complexity : Int
  complexityText : String
  views : Option Int
  date : String
  created_at : String
deriving Repr, DecidableEq

/-- The single-record mapping in `ngOnInit`; `fmtDate` stands for the
`toLocaleDateString` builtin applied to `new Date(created_at)`. -/
def detailMap (fmtDate : String → String) (data : RawPrompt) : DetailPrompt :=
  { title := data.title
    content := data.content
    complexity := data.complexity
    complexityText := getComplexityText data.complexity
    views := data.view_count
    date := fmtDate data.created_at
    created_at := data.created_at }

end PromptDetailComponent

namespace AddPromptComponent

/-- `AddPromptComponent.getComplexityClass`: the form control's value may be
absent (`undefined`/`null`), and the `if (!value)` guard also sends the falsy
number 0 to "simple"; otherwise two boundaries as in the detail component. -/
def getComplexityClass (value : Option Int) : String :=
  match value with
  | none => "simple"
  | some x =>
    if x = 0 then "simple"
    else if x ≤ 3 then "simple"
    else if x ≤ 7 then "moderate"
    else "complex"

/-- `AddPromptComponent.getComplexityText`: same shape with capitalised
labels. -/
def getComplexityText (value : Option Int) : String :=
  match value with
  | none => "Simple"
  | some x =>
    if x = 0 then "Simple"
    else if x ≤ 3 then "Simple"
    else if x ≤ 7 then "Moderate"
    else "Complex"

end AddPromptComponent

/-- A concrete instance of the `Date`-constructor parameter, defined at the
single timestamp the witnesses and counterexamples use: ECMAScript parses the
date-only string "1970-01-02" as 1970-01-02T00:00:00 UTC, which is 86400000
milliseconds after the epoch; every other string is treated as unparseable
here. -/
def parseEpochDay1 (s : String) : Option Int :=
  if s = "1970-01-02" then some 86400000 else none

/-- Claim C4 counterexample: the colour pipe applied to a `null`/`undefined`
complexity value raises a `TypeError` (from `complexity.toLowerCase()`)
instead of resolving to a default, so not every exposed function tolerates
null/undefined input without raising. -/
theorem transform_null_raises :
    ComplexityToColorPipe.transform none = Except.error "TypeError" := rfl

/-- Claim C4 as amended: for inputs whose argument is itself present, the
exposed functions resolve malformed input to documented defaults without
raising — any unrecognized label text falls through to the default colour
"#f5f5f5", a present numeric argument formats without error, an unparseable
timestamp yields 0 days, and a record without `view_count` maps to 0 views —
but a `null`/`undefined` argument to the colour pipe (or to `formatViews`)
raises a `TypeError`. -/
theorem exposed_defaults (s : String) (v : Int) (parse : String → Option Int)
    (now : Int) (t : String) (fmtDate : String → String) (p : RawPrompt) :
    (∃ c, ComplexityToColorPipe.transform (some s) = Except.ok c) ∧
    (jsToLower s ≠ "simple" → jsToLower s ≠ "moderate" → jsToLower s ≠ "complex" →
      ComplexityToColorPipe.transform (some s) = Except.ok "#f5f5f5") ∧
    PromptDetailComponent.formatViewsJS (some v) =
      Except.ok (PromptDetailComponent.formatViews v) ∧
    (parse t = none → PromptDetailComponent.getDaysAgo parse now t = 0) ∧
    (p.view_count = none → (PromptLibraryComponent.mapPrompt fmtDate p).views = 0) := by
  refine ⟨?_, ?_, rfl, ?_, ?_⟩
  · unfold ComplexityToColorPipe.transform
    exact ⟨_, rfl⟩
  · intro h1 h2 h3
    unfold ComplexityToColorPipe.transform
    split <;> simp_all
  · intro h
    unfold PromptDetailComponent.getDaysAgo
    split
    · rfl
    · rw [h]
  · intro h
    simp [PromptLibraryComponent.mapPrompt, jsOrNum, h]

/-- Concrete instances of C4's amended statement: unrecognized text gets the
default colour, an unparseable timestamp gives 0 days, and a record with no
`view_count` gets 0 views. -/
theorem exposed_defaults_witness :
    ComplexityToColorPipe.transform (some "weird") = Except.ok "#f5f5f5" ∧
    PromptDetailComponent.getDaysAgo parseEpochDay1 0 "zzz" = 0 ∧
    (PromptLibraryComponent.mapPrompt id rawSample).views = 0 :=
  ⟨(exposed_defaults "weird" 7 parseEpochDay1 0 "zzz" id rawSample).2.1
      (by decide) (by decide) (by decide),
   (exposed_defaults "weird" 7 parseEpochDay1 0 "zzz" id rawSample).2.2.2.1 rfl,
   (exposed_defaults "weird" 7 parseEpochDay1 0 "zzz" id rawSample).2.2.2.2 rfl⟩

/-- Claim C5 counterexample: a parseable `created_at` one day in the future
of the current clock produces `daysAgo = -1 < 0`, so `daysAgo` is not never
negative.  Here the clock reads the epoch (1970-01-01T00:00:00Z) and the
timestamp parses to one day later. -/
theorem getDaysAgo_negative_cex :
    PromptDetailComponent.getDaysAgo parseEpochDay1 0 "1970-01-02" < 0 := by decide

/-- Claim C5 as amended: `daysAgo` is 0 when `created_at` is empty or
unparseable, and is non-negative whenever the parsed timestamp does not lie
in the future of the clock; a future timestamp may produce a negative value
(no clamp is applied). -/
theorem getDaysAgo_nonneg (parse : String → Option Int) (now : Int) (t : String) :
    ((t = "" ∨ parse t = none) → PromptDetailComponent.getDaysAgo parse now t = 0) ∧
    (∀ T : Int, parse t = some T → T ≤ now →
      0 ≤ PromptDetailComponent.getDaysAgo parse now t) := by
  constructor
  · intro h
    unfold PromptDetailComponent.getDaysAgo
    rcases h with h | h
    · simp [h]
    · simp [h]
  · intro T hT hle
    unfold PromptDetailComponent.getDaysAgo
    split
    · simp
    · rw [hT]
      exact Int.fdiv_nonneg (by omega) (by omega)

/-- Concrete instances of C5's amended statement: the empty timestamp gives
0, and a past timestamp gives a non-negative day count. -/
theorem getDaysAgo_nonneg_witness :
    PromptDetailComponent.getDaysAgo parseEpochDay1 86400000 "" = 0 ∧
    0 ≤ PromptDetailComponent.getDaysAgo parseEpochDay1 864000000 "1970-01-02" :=
  ⟨(getDaysAgo_nonneg parseEpochDay1 86400000 "").1 (Or.inl rfl),
   (getDaysAgo_nonneg parseEpochDay1 864000000 "1970-01-02").2 86400000
      (by decide) (by decide)⟩

/-- Claim C6: for a fixed clock `now`, `getDaysAgo` returns 0 on an empty or
unparseable timestamp and otherwise the floor of the elapsed time divided by
86400 seconds (86400000 ms); determinism for a fixed `now` holds because the
embedding is a pure function of `parse`, `now` and the string. -/
theorem getDaysAgo_spec (parse : String → Option Int) (now : Int) (t : String) :
    ((t = "" ∨ parse t = none) → PromptDetailComponent.getDaysAgo parse now t = 0) ∧
    (∀ T : Int, t ≠ "" → parse t = some T →
      PromptDetailComponent.getDaysAgo parse now t = Int.fdiv (now - T) 86400000) := by
  constructor
  · intro h
    unfold PromptDetailComponent.getDaysAgo
    rcases h with h | h
    · simp [h]
    · simp [h]
  · intro T hne hT
    unfold PromptDetailComponent.getDaysAgo
    rw [if_neg hne, hT]

/-- Concrete instances of C6: an unparseable timestamp gives 0, and ten days
of elapsed clock give 10. -/
theorem getDaysAgo_spec_witness :
    PromptDetailComponent.getDaysAgo parseEpochDay1 0 "not-a-date" = 0 ∧
    PromptDetailComponent.getDaysAgo parseEpochDay1 950400000 "1970-01-02" =
      Int.fdiv (950400000 - 86400000) 86400000 :=
  ⟨(getDaysAgo_spec parseEpochDay1 0 "not-a-date").1 (Or.inr (by decide)),
   (getDaysAgo_spec parseEpochDay1 950400000 "1970-01-02").2 86400000
      (by decide) (by decide)⟩

/-- Claim C7 counterexample: `formatViews(-5)` returns "-5", the plain signed
decimal text, not "0", so negative input is not treated as 0. -/
theorem formatViews_negative_cex :
    PromptLibraryComponent.formatViews (-5) = "-5" ∧
    PromptLibraryComponent.formatViews (-5) ≠ "0" := by
  constructor <;> decide

/-- Claim C7 as amended: `formatViews` does not treat negative or missing
input as 0 — a negative integer formats as its signed decimal text in both
components, and a missing (`undefined`/`null`) argument raises a `TypeError`
rather than returning "0". -/
theorem formatViews_negative_spec (v : Int) (h : v < 0) :
    PromptLibraryComponent.formatViews v = toString v ∧
    PromptDetailComponent.formatViews v = toString v ∧
    PromptDetailComponent.formatViewsJS none = Except.error "TypeError" := by
  refine ⟨?_, ?_, rfl⟩ <;>
    simp [PromptLibraryComponent.formatViews, PromptDetailComponent.formatViews] <;>
    omega

/-- Concrete instance of C7's amended statement at -5. -/
theorem formatViews_negative_spec_witness :
    PromptLibraryComponent.formatViews (-5) = toString (-5 : Int) ∧
    PromptDetailComponent.formatViews (-5) = toString (-5 : Int) ∧
    PromptDetailComponent.formatViewsJS none = Except.error "TypeError" :=
  formatViews_negative_spec (-5) (by decide)

/-- Claim C8: under the two-boundary rule of the detail and add-prompt call
sites, every level at most 3 (including levels below 1) is the simple bucket,
every level in (3,7] the moderate bucket, every level above 7 (including
levels above 10) the complex bucket, and no input yields an Unknown bucket. -/
theorem complexity_two_boundary (L : Int) :
    (L ≤ 3 →
      PromptDetailComponent.getComplexityClass L = "simple" ∧
      PromptDetailComponent.getComplexityText L = "Simple" ∧
      AddPromptComponent.getComplexityClass (some L) = "simple") ∧
    (3 < L → L ≤ 7 →
      PromptDetailComponent.getComplexityClass L = "moderate" ∧
      PromptDetailComponent.getComplexityText L = "Moderate" ∧
      AddPromptComponent.getComplexityClass (some L) = "moderate") ∧
    (7 < L →
      PromptDetailComponent.getComplexityClass L = "complex" ∧
      PromptDetailComponent.getComplexityText L = "Complex" ∧
      AddPromptComponent.getComplexityClass (some L) = "complex") ∧
    PromptDetailComponent.getComplexityClass L ≠ "Unknown" ∧
    PromptDetailComponent.getComplexityText L ≠ "Unknown" ∧
    AddPromptComponent.getComplexityClass (some L) ≠ "Unknown" := by
  refine ⟨fun h1 => ?_, fun h1 h2 => ?_, fun h1 => ?_, ?_, ?_, ?_⟩ <;>
    simp only [PromptDetailComponent.getComplexityClass,
      PromptDetailComponent.getComplexityText,
      AddPromptComponent.getComplexityClass] <;>
    split_ifs <;> first | decide | omega

/-- Concrete instances of C8 at levels -2 (below 1), 5 and 12 (above 10). -/
theorem complexity_two_boundary_witness :
    PromptDetailComponent.getComplexityClass (-2) = "simple" ∧
    AddPromptComponent.getComplexityClass (some 5) = "moderate" ∧
    PromptDetailComponent.getComplexityText 12 = "Complex" :=
  ⟨((complexity_two_boundary (-2)).1 (by decide)).1,
   ((complexity_two_boundary 5).2.1 (by decide) (by decide)).2.2,
   ((complexity_two_boundary 12).2.2.1 (by decide)).2.1⟩

/-- One-decimal compact thousands rendering, stated from the specification's
words: divide by 1000, round to exactly one decimal place (nearest tenth,
ties away from zero), append `k`.  The rounded count of tenths of a unit is
the nearest integer to `10 * views / 1000`. -/
def oneDecimalK (views : Int) : String :=
  let tenths : Nat := (10 * views.toNat + 500) / 1000
  toString (tenths / 10) ++ "." ++ toString (tenths % 10) ++ "k"

/-- Claim C9 counterexample: at views = 1150 the true quotient 1.15 rounded
to exactly one decimal place is 1.2 (both the ties-away-from-zero and the
ties-to-even conventions give 1.2), but the program prints "1.1k": the
binary double closest to 1.15 lies below it, and `toFixed(1)` rounds that
double down to 1.1. -/
theorem formatViews_tie_cex :
    PromptLibraryComponent.formatViews 1150 = "1.1k" ∧
    oneDecimalK 1150 = "1.2k" ∧
    PromptLibraryComponent.formatViews 1150 ≠ oneDecimalK 1150 := by
  refine ⟨by decide, by decide, by decide⟩

/-- Claim C9 as amended: for every integer in [0, 1000) both components
format the plain decimal text; for every integer at least 1000 both
components render one decimal digit with "k" appended, the digit obtained by
applying the `toFixed` rounding rule to the binary double `views / 1000` —
which agrees with exact one-decimal rounding at the specification's examples
(1000 → "1.0k", 1500 → "1.5k", 12000 → "12.0k") though not at every exact
tie of the true quotient. -/
theorem formatViews_thousands_spec (v : Int) :
    (1000 ≤ v → ∃ tenths : Nat,
      PromptLibraryComponent.formatViews v =
        toString (tenths / 10) ++ "." ++ toString (tenths % 10) ++ "k" ∧
      PromptDetailComponent.formatViews v =
        toString (tenths / 10) ++ "." ++ toString (tenths % 10) ++ "k") ∧
    (0 ≤ v → v < 1000 →
      PromptLibraryComponent.formatViews v = toString v ∧
      PromptDetailComponent.formatViews v = toString v) ∧
    (PromptLibraryComponent.formatViews 1000 = "1.0k" ∧
      PromptLibraryComponent.formatViews 1500 = "1.5k" ∧
      PromptLibraryComponent.formatViews 12000 = "12.0k" ∧
      PromptLibraryComponent.formatViews 0 = "0" ∧
      PromptLibraryComponent.formatViews 999 = "999") := by
  refine ⟨fun h => ?_, fun h0 h1 => ?_,
    by decide, by decide, by decide, by decide, by decide⟩
  · refine ⟨(10 * (PromptLibraryComponent.flDivThousand v.toNat).1 *
        2 ^ ((PromptLibraryComponent.flDivThousand v.toNat).2 + 1) + 2 ^ 52) / 2 ^ 53,
      ?_, ?_⟩ <;>
      simp [PromptLibraryComponent.formatViews, PromptDetailComponent.formatViews,
        PromptLibraryComponent.toFixed1Thousandths, h]
  · constructor <;>
      simp [PromptLibraryComponent.formatViews, PromptDetailComponent.formatViews] <;>
      omega

/-- Concrete instances of C9's amended statement: the one-decimal-with-k form
at 1500 and the plain-decimal branch at 999. -/
theorem formatViews_thousands_spec_witness :
    (∃ tenths : Nat,
      PromptLibraryComponent.formatViews 1500 =
        toString (tenths / 10) ++ "." ++ toString (tenths % 10) ++ "k" ∧
      PromptDetailComponent.formatViews 1500 =
        toString (tenths / 10) ++ "." ++ toString (tenths % 10) ++ "k") ∧
    PromptLibraryComponent.formatViews 999 = toString (999 : Int) :=
  ⟨(formatViews_thousands_spec 1500).1 (by decide),
   ((formatViews_thousands_spec 999).2.1 (by decide) (by decide)).1⟩

/-- Claim C10: the detail view's single-record mapping copies `view_count`
into `views` verbatim with no fallback, so an absent `view_count` leaves
`views` absent, whereas the list mapping of the library component defaults
the same record's views to 0. -/
theorem detail_views_verbatim (fmtDate : String → String) (raw : RawPrompt) :
    (PromptDetailComponent.detailMap fmtDate raw).views = raw.view_count ∧
    (raw.view_count = none →
      (PromptDetailComponent.detailMap fmtDate raw).views = none ∧
      ∀ g : String → String, (PromptLibraryComponent.mapPrompt g raw).views = 0) := by
  refine ⟨rfl, fun h => ⟨?_, fun g => ?_⟩⟩
  · simp [PromptDetailComponent.detailMap, h]
  · simp [PromptLibraryComponent.mapPrompt, jsOrNum, h]

/-- Concrete instance of C10 on a record without `view_count`. -/
theorem detail_views_verbatim_witness :
    (PromptDetailComponent.detailMap id rawSample).views = none ∧
    (PromptLibraryComponent.mapPrompt id rawSample).views = 0 :=
  ⟨((detail_views_verbatim id rawSample).2 rfl).1,
   ((detail_views_verbatim id rawSample).2 rfl).2 id⟩

end PromptNexus
